import Mathlib

/-!
Shallow embedding of the credential and transport-security validation
subsystem of `pkg/apis/monitoring/v1/types.go` (prometheus-operator API
types), together with theorems settling the specification claims about it.

Modelling conventions:
* Go pointer fields (`*T`, nil-able) become `Option T`; Go value struct
  fields stay plain structure fields.
* A Go comparison against the zero value, such as
  `c.CA != (SecretOrConfigMap{})`, becomes comparison against an explicit
  `zero` constant.
* Go `Validate() error` methods become functions returning `Option String`:
  `some msg` is the typed validation error carrying message `msg`
  (the error wrapper types carry nothing but the message string),
  `none` is success (Go `nil`).
* The panic in `ObjectReference.GroupKind` is modelled by returning `none`.
* `strings.TrimSpace` / `strings.ToLower` are modelled by the structural
  character-list functions `goTrimSpace` / `goToLower` below (they agree
  with the Go functions on the ASCII inputs considered here).
-/

/-- Model of Go `strings.ToLower`: lower-case every character. -/
def goToLower (s : String) : String :=
  ⟨s.data.map Char.toLower⟩

/-- Model of Go `strings.TrimSpace`: drop leading and trailing whitespace. -/
def goTrimSpace (s : String) : String :=
  ⟨((s.data.dropWhile Char.isWhitespace).reverse.dropWhile Char.isWhitespace).reverse⟩

/-- Kubernetes core `v1.SecretKeySelector`: selects a key of a Secret. -/
structure SecretKeySelector where
  Name : String
  Key : String
  deriving DecidableEq

/-- Kubernetes core `v1.ConfigMapKeySelector`: selects a key of a ConfigMap. -/
structure ConfigMapKeySelector where
  Name : String
  Key : String
  deriving DecidableEq

/-- `SecretOrConfigMap` allows to specify data as a Secret or ConfigMap.
Fields are mutually exclusive (`types.go` line 1619). -/
structure SecretOrConfigMap where
  Secret : Option SecretKeySelector
  ConfigMap : Option ConfigMapKeySelector
  deriving DecidableEq

/-- The Go zero value `SecretOrConfigMap{}`: both pointer fields nil. -/
def SecretOrConfigMap.zero : SecretOrConfigMap :=
  { Secret := none, ConfigMap := none }

/-- `SecretOrConfigMap.Validate` (`types.go` line 1638). -/
def SecretOrConfigMap.Validate (c : SecretOrConfigMap) : Option String :=
  if c.Secret.isSome ∧ c.ConfigMap.isSome then
    some "SecretOrConfigMap can not specify both Secret and ConfigMap"
  else
    none

/-- `SafeTLSConfig` (`types.go` line 1648). -/
structure SafeTLSConfig where
  CA : SecretOrConfigMap
  Cert : SecretOrConfigMap
  KeySecret : Option SecretKeySelector
  ServerName : String
  InsecureSkipVerify : Bool
  deriving DecidableEq

/-- `SafeTLSConfig.Validate` (`types.go` line 1662), written as the
equivalent guard chain of the Go early returns: a clause
`c.CA ≠ zero ∧ (c.CA.Validate).isSome` renders
`if c.CA != (SecretOrConfigMap{}) { if err := c.CA.Validate(); err != nil
{ return err } }`. -/
def SafeTLSConfig.Validate (c : SafeTLSConfig) : Option String :=
  if c.CA ≠ SecretOrConfigMap.zero ∧ (c.CA.Validate).isSome then
    c.CA.Validate
  else if c.Cert ≠ SecretOrConfigMap.zero ∧ (c.Cert.Validate).isSome then
    c.Cert.Validate
  else if c.Cert ≠ SecretOrConfigMap.zero ∧ c.KeySecret = none then
    some "client cert specified without client key"
  else if c.KeySecret ≠ none ∧ c.Cert = SecretOrConfigMap.zero then
    some "client key specified without client cert"
  else
    none

/-- `TLSConfig` extends the safe TLS configuration with file parameters
(`types.go` line 1688; `SafeTLSConfig` is an embedded field). -/
structure TLSConfig extends SafeTLSConfig where
  CAFile : String
  CertFile : String
  KeyFile : String
  deriving DecidableEq

/-- The local `hasCert` of `TLSConfig.Validate` (`types.go` line 1733):
a client certificate is present through the file path or the reference. -/
def TLSConfig.hasCert (c : TLSConfig) : Prop :=
  c.CertFile ≠ "" ∨ c.Cert ≠ SecretOrConfigMap.zero

/-- The local `hasKey` of `TLSConfig.Validate` (`types.go` line 1734):
a client key is present through the file path or the reference. -/
def TLSConfig.hasKey (c : TLSConfig) : Prop :=
  c.KeyFile ≠ "" ∨ c.KeySecret ≠ none

instance (c : TLSConfig) : Decidable c.hasCert := by
  unfold TLSConfig.hasCert; infer_instance

instance (c : TLSConfig) : Decidable c.hasKey := by
  unfold TLSConfig.hasKey; infer_instance

/-- `TLSConfig.Validate` (`types.go` line 1710), as the equivalent guard
chain of the Go nested early returns. -/
def TLSConfig.Validate (c : TLSConfig) : Option String :=
  if c.CA ≠ SecretOrConfigMap.zero ∧ c.CAFile ≠ "" then
    some "tls config can not both specify CAFile and CA"
  else if c.CA ≠ SecretOrConfigMap.zero ∧ (c.CA.Validate).isSome then
    some "tls config CA is invalid"
  else if c.Cert ≠ SecretOrConfigMap.zero ∧ c.CertFile ≠ "" then
    some "tls config can not both specify CertFile and Cert"
  else if c.Cert ≠ SecretOrConfigMap.zero ∧ (c.Cert.Validate).isSome then
    some "tls config Cert is invalid"
  else if c.KeyFile ≠ "" ∧ c.KeySecret ≠ none then
    some "tls config can not both specify KeyFile and KeySecret"
  else if c.hasCert ∧ ¬ c.hasKey then
    some "tls config can not specify client cert without client key"
  else if c.hasKey ∧ ¬ c.hasCert then
    some "tls config can not specify client key without client cert"
  else
    none

/-- All per-slot mutual-exclusion checks of `TLSConfig.Validate` pass:
for each slot (CA, Cert, Key) the file-path form and the reference form are
not both populated, and the CA and Cert reference selectors are internally
valid (their own Secret/ConfigMap mutual exclusion). -/
def TLSConfig.mutualExclusionOK (c : TLSConfig) : Prop :=
  ¬(c.CA ≠ SecretOrConfigMap.zero ∧ c.CAFile ≠ "") ∧
  c.CA.Validate = none ∧
  ¬(c.Cert ≠ SecretOrConfigMap.zero ∧ c.CertFile ≠ "") ∧
  c.Cert.Validate = none ∧
  ¬(c.KeyFile ≠ "" ∧ c.KeySecret ≠ none)

instance (c : TLSConfig) : Decidable c.mutualExclusionOK := by
  unfold TLSConfig.mutualExclusionOK; infer_instance

/-- `OAuth2` client-credentials descriptor (`types.go` line 1566). -/
structure OAuth2 where
  ClientID : SecretOrConfigMap
  ClientSecret : SecretKeySelector
  TokenURL : String
  Scopes : List String
  EndpointParams : List (String × String)
  deriving DecidableEq

/-- `OAuth2.Validate` (`types.go` line 1588). -/
def OAuth2.Validate (o : OAuth2) : Option String :=
  if o.TokenURL = "" then
    some "OAuth2 token url must be specified"
  else if o.ClientID = SecretOrConfigMap.zero then
    some "OAuth2 client id must be specified"
  else
    match o.ClientID.Validate with
    | some e => some ("invalid OAuth2 client id: " ++ e)
    | none => none

/-- `SafeAuthorization` (`types.go` line 2252). The Go field `Type` is
rendered `Type'` because `Type` is a Lean keyword. -/
structure SafeAuthorization where
  Type' : String
  Credentials : Option SecretKeySelector
  deriving DecidableEq

/-- `SafeAuthorization.Validate` (`types.go` line 2261). The Go method also
returns nil on a nil receiver; the receiver is modelled as a value, so that
pointer artifact has no counterpart here. -/
def SafeAuthorization.Validate (c : SafeAuthorization) : Option String :=
  if goToLower (goTrimSpace c.Type') = "basic" then
    some "Authorization type cannot be set to \"basic\", use \"basic_auth\" instead"
  else if c.Credentials = none then
    some "Authorization credentials are required"
  else
    none

/-- `Authorization` (`types.go` line 2277; `SafeAuthorization` embedded). -/
structure Authorization extends SafeAuthorization where
  CredentialsFile : String
  deriving DecidableEq

/-- `Authorization.Validate` (`types.go` line 2284). Note the order: the
Credentials/CredentialsFile conflict is checked before the "basic" type
check. -/
def Authorization.Validate (c : Authorization) : Option String :=
  if c.Credentials ≠ none ∧ c.CredentialsFile ≠ "" then
    some "Authorization can not specify both Credentials and CredentialsFile"
  else if goToLower (goTrimSpace c.Type') = "basic" then
    some "Authorization type cannot be set to \"basic\", use \"basic_auth\" instead"
  else
    none

/-- `RelabelConfig` (`types.go` line 1135); payload only, never inspected
by the validators. -/
structure RelabelConfig where
  SourceLabels : List String
  Separator : String
  TargetLabel : String
  Regex : String
  Modulus : Nat
  Replacement : String
  Action : String
  deriving DecidableEq

/-- Kubernetes `metav1.LabelSelector` (match-labels part; payload only). -/
structure LabelSelector where
  MatchLabels : List (String × String)
  deriving DecidableEq

/-- `NamespaceSelector` (`types.go` line 2153). -/
structure NamespaceSelector where
  Any : Bool
  MatchNames : List String
  deriving DecidableEq

/-- `ProbeTargetStaticConfig` (`types.go` line 1518). -/
structure ProbeTargetStaticConfig where
  Targets : List String
  Labels : List (String × String)
  RelabelConfigs : List RelabelConfig
  deriving DecidableEq

/-- `ProbeTargetIngress` (`types.go` line 1532). -/
structure ProbeTargetIngress where
  Selector : LabelSelector
  NamespaceSelector : NamespaceSelector
  RelabelConfigs : List RelabelConfig
  deriving DecidableEq

/-- `ProbeTargets` (`types.go` line 1484). -/
structure ProbeTargets where
  StaticConfig : Option ProbeTargetStaticConfig
  Ingress : Option ProbeTargetIngress
  deriving DecidableEq

/-- `ProbeTargets.Validate` (`types.go` line 1497). -/
def ProbeTargets.Validate (it : ProbeTargets) : Option String :=
  if it.StaticConfig = none ∧ it.Ingress = none then
    some "at least one of .spec.targets.staticConfig and .spec.targets.ingress is required"
  else
    none

/-- `monitoring.GroupName`, the API group constant; its value is documented
at the `ObjectReference.Group` field (`types.go` line 549): when not
specified, the group defaults to `monitoring.coreos.com`. -/
def GroupName : String := "monitoring.coreos.com"

/-- The resource-name constants (`types.go` lines 30 to 55). -/
def PrometheusesKind : String := "Prometheus"

def PrometheusName : String := "prometheuses"

def AlertmanagersKind : String := "Alertmanager"

def AlertmanagerName : String := "alertmanagers"

def ServiceMonitorsKind : String := "ServiceMonitor"

def ServiceMonitorName : String := "servicemonitors"

def PodMonitorsKind : String := "PodMonitor"

def PodMonitorName : String := "podmonitors"

def PrometheusRuleKind : String := "CustomPrometheusRule"

def PrometheusRuleName : String := "customprometheusrules"

def ProbesKind : String := "Probe"

def ProbeName : String := "probes"

/-- The fixed resource-to-kind table (`types.go` line 57), as an
association list with the pairwise-distinct keys of the Go map literal. -/
def resourceToKind : List (String × String) :=
  [(PrometheusName, PrometheusesKind),
   (AlertmanagerName, AlertmanagersKind),
   (ServiceMonitorName, ServiceMonitorsKind),
   (PodMonitorName, PodMonitorsKind),
   (PrometheusRuleName, PrometheusRuleKind),
   (ProbeName, ProbesKind)]

/-- The legal values of `ObjectReference.Resource` per its schema marker
`+kubebuilder:validation:Enum=prometheusrules;servicemonitors;podmonitors;probes`
(`types.go` line 556). -/
def objectReferenceResourceEnum : List String :=
  ["prometheusrules", "servicemonitors", "podmonitors", "probes"]

/-- `ObjectReference` (`types.go` line 548). -/
structure ObjectReference where
  Group : String
  Resource : String
  Namespace : String
  Name : String
  deriving DecidableEq

/-- `schema.GroupKind` of the Kubernetes apimachinery package. -/
structure Schema.GroupKind where
  Group : String
  Kind : String
  deriving DecidableEq

/-- `schema.GroupResource` of the Kubernetes apimachinery package. -/
structure Schema.GroupResource where
  Group : String
  Resource : String
  deriving DecidableEq

/-- `ObjectReference.getGroup` (`types.go` line 588): defaults to the fixed
group constant when the caller left the group unset. -/
def ObjectReference.getGroup (obj : ObjectReference) : String :=
  if obj.Group = "" then GroupName else obj.Group

/-- `ObjectReference.GroupResource` (`types.go` line 568). -/
def ObjectReference.GroupResource (obj : ObjectReference) : Schema.GroupResource :=
  { Resource := obj.Resource, Group := obj.getGroup }

/-- `ObjectReference.GroupKind` (`types.go` line 575): looks the resource up
in the fixed table and panics when it is absent; the panic is modelled as
`none`. -/
def ObjectReference.GroupKind (obj : ObjectReference) : Option Schema.GroupKind :=
  match resourceToKind.lookup obj.Resource with
  | none => none
  | some k => some { Kind := k, Group := obj.getGroup }

/-- A reference selector with both forms populated, for concrete checks. -/
def conflictedSelector : SecretOrConfigMap :=
  { Secret := some { Name := "s", Key := "k" },
    ConfigMap := some { Name := "c", Key := "k" } }

/-- A reference selector with only the secret form populated. -/
def secretOnlySelector : SecretOrConfigMap :=
  { Secret := some { Name := "s", Key := "k" }, ConfigMap := none }

/-- A safe TLS configuration with a client cert and no client key. -/
def safeTLSCertOnly : SafeTLSConfig :=
  { CA := SecretOrConfigMap.zero,
    Cert := secretOnlySelector,
    KeySecret := none,
    ServerName := "",
    InsecureSkipVerify := false }

/-- A TLS configuration with only a client cert file, for concrete checks. -/
def tlsCertFileOnly : TLSConfig :=
  { CA := SecretOrConfigMap.zero,
    Cert := SecretOrConfigMap.zero,
    KeySecret := none,
    ServerName := "",
    InsecureSkipVerify := false,
    CAFile := "",
    CertFile := "/etc/tls/cert.pem",
    KeyFile := "" }

/-- A TLS configuration with both the CA reference and the CA file set. -/
def tlsCAConflict : TLSConfig :=
  { CA := secretOnlySelector,
    Cert := SecretOrConfigMap.zero,
    KeySecret := none,
    ServerName := "",
    InsecureSkipVerify := false,
    CAFile := "/etc/ca.pem",
    CertFile := "",
    KeyFile := "" }

/-- An authorization section with type `Basic` and both the credentials
reference and the credentials file populated. -/
def authBasicConflicted : Authorization :=
  { Type' := "Basic",
    Credentials := some { Name := "s", Key := "token" },
    CredentialsFile := "/etc/creds" }

/-- A safe authorization section with type ` Basic ` (whitespace, mixed
case) and no credentials. -/
def safeAuthBasic : SafeAuthorization :=
  { Type' := " Basic ", Credentials := none }

/-- An authorization section with type `Bearer` and both the credentials
reference and the credentials file populated. -/
def authBearerConflicted : Authorization :=
  { Type' := "Bearer",
    Credentials := some { Name := "s", Key := "token" },
    CredentialsFile := "/etc/creds" }

/-- An authorization section with every field left at its zero value. -/
def authEmpty : Authorization :=
  { Type' := "", Credentials := none, CredentialsFile := "" }

/-- An OAuth2 descriptor with an empty token URL but a populated client id. -/
def oauthNoToken : OAuth2 :=
  { ClientID := secretOnlySelector,
    ClientSecret := { Name := "s", Key := "k" },
    TokenURL := "",
    Scopes := [],
    EndpointParams := [] }

/-- An object reference to a ServiceMonitor, group left unset. -/
def objRefServiceMonitor : ObjectReference :=
  { Group := "", Resource := "servicemonitors", Namespace := "default", Name := "" }

/-- An object reference whose resource is the schema-legal value
`prometheusrules`. -/
def objRefPrometheusRule : ObjectReference :=
  { Group := "", Resource := "prometheusrules", Namespace := "default", Name := "" }

/-- `SecretOrConfigMap.Validate` never fails when the early-return guard of
its caller does not fire: either the selector is the zero value (which
validates to `none` by computation) or its validation already returned no
error. -/
theorem validate_none_of_guard_off (s : SecretOrConfigMap)
    (h : ¬(s ≠ SecretOrConfigMap.zero ∧ (s.Validate).isSome)) :
    s.Validate = none := by
  by_cases hz : s = SecretOrConfigMap.zero
  · subst hz; rfl
  · cases hv : s.Validate with
    | none => rfl
    | some e => exact absurd ⟨hz, by simp [hv]⟩ h

/-- C4: a reference selector fails validation iff both the secret form and
the config-map form are populated (the conflicting-reference error); with
exactly one form set, or with both empty, it passes. -/
theorem secretOrConfigMap_validate_conflict_iff (c : SecretOrConfigMap) :
    ((c.Validate).isSome ↔ (c.Secret.isSome ∧ c.ConfigMap.isSome)) ∧
    ((c.Secret.isSome ∧ c.ConfigMap.isSome) →
      c.Validate = some "SecretOrConfigMap can not specify both Secret and ConfigMap") := by
  unfold SecretOrConfigMap.Validate
  by_cases h : c.Secret.isSome ∧ c.ConfigMap.isSome <;> simp [h]

/-- Concrete instance of C4: a doubly-populated selector is rejected with
the conflicting-reference error. -/
theorem secretOrConfigMap_validate_conflict_iff_witness :
    conflictedSelector.Validate =
      some "SecretOrConfigMap can not specify both Secret and ConfigMap" :=
  (secretOrConfigMap_validate_conflict_iff conflictedSelector).2 (by decide)

/-- C8: a probe target selector fails validation iff neither the static
configuration nor the ingress source is populated, and then with the
no-target-source error; with one or both populated it passes. -/
theorem probeTargets_validate_iff (t : ProbeTargets) :
    ((t.Validate).isSome ↔ (t.StaticConfig = none ∧ t.Ingress = none)) ∧
    (t.StaticConfig = none ∧ t.Ingress = none →
      t.Validate = some "at least one of .spec.targets.staticConfig and .spec.targets.ingress is required") := by
  unfold ProbeTargets.Validate
  by_cases h : t.StaticConfig = none ∧ t.Ingress = none <;> simp [h]

/-- Concrete instance of C8: with neither target source set, validation
fails with the no-target-source error. -/
theorem probeTargets_validate_iff_witness :
    ProbeTargets.Validate { StaticConfig := none, Ingress := none } =
      some "at least one of .spec.targets.staticConfig and .spec.targets.ingress is required" :=
  (probeTargets_validate_iff { StaticConfig := none, Ingress := none }).2 ⟨rfl, rfl⟩

/-- C3: for a safe TLS configuration whose CA and Cert reference selectors
are themselves valid, validation fails iff exactly one of the client cert
selector and the client key secret is populated — with the missing-key
error when the cert is set without the key and the missing-cert error in
the opposite case — and passes when both are empty or both populated. -/
theorem safeTLSConfig_validate_pairing (c : SafeTLSConfig)
    (hCA : c.CA.Validate = none) (hCert : c.Cert.Validate = none) :
    (c.Cert ≠ SecretOrConfigMap.zero ∧ c.KeySecret = none →
      c.Validate = some "client cert specified without client key") ∧
    (c.KeySecret ≠ none ∧ c.Cert = SecretOrConfigMap.zero →
      c.Validate = some "client key specified without client cert") ∧
    ((c.Cert = SecretOrConfigMap.zero ∧ c.KeySecret = none) ∨
     (c.Cert ≠ SecretOrConfigMap.zero ∧ c.KeySecret ≠ none) →
      c.Validate = none) ∧
    ((c.Validate).isSome ↔
      ((c.Cert ≠ SecretOrConfigMap.zero ∧ c.KeySecret = none) ∨
       (c.KeySecret ≠ none ∧ c.Cert = SecretOrConfigMap.zero))) := by
  unfold SafeTLSConfig.Validate
  by_cases h1 : c.Cert = SecretOrConfigMap.zero <;>
    by_cases h2 : c.KeySecret = none <;>
      simp [hCA, hCert, h1, h2]

/-- Concrete instance of C3: a client cert without a client key is rejected
with the missing-key error. -/
theorem safeTLSConfig_validate_pairing_witness :
    safeTLSCertOnly.Validate = some "client cert specified without client key" :=
  (safeTLSConfig_validate_pairing safeTLSCertOnly (by decide) (by decide)).1
    ⟨by decide, rfl⟩

/-- C1: for a file-augmented TLS configuration on which all per-slot
mutual-exclusion checks pass, validation fails iff `hasCert` (cert file or
cert reference present) differs from `hasKey` (key file or key reference
present), with the incomplete-pair error naming the missing side; and the
mutual-exclusion checks run first, so an incomplete-pair error is reported
only when every mutual-exclusion check passed. -/
theorem tlsConfig_validate_completeness (c : TLSConfig) :
    (c.mutualExclusionOK →
      ((c.hasCert ∧ ¬ c.hasKey →
        c.Validate = some "tls config can not specify client cert without client key") ∧
       (c.hasKey ∧ ¬ c.hasCert →
        c.Validate = some "tls config can not specify client key without client cert") ∧
       ((c.hasCert ↔ c.hasKey) → c.Validate = none) ∧
       ((c.Validate).isSome ↔ ¬(c.hasCert ↔ c.hasKey)))) ∧
    ((c.Validate = some "tls config can not specify client cert without client key" ∨
      c.Validate = some "tls config can not specify client key without client cert") →
      c.mutualExclusionOK) := by
  constructor
  · rintro ⟨h1, h2, h3, h4, h5⟩
    have h2' : ¬(c.CA ≠ SecretOrConfigMap.zero ∧ (c.CA.Validate).isSome) := by
      simp [h2]
    have h4' : ¬(c.Cert ≠ SecretOrConfigMap.zero ∧ (c.Cert.Validate).isSome) := by
      simp [h4]
    unfold TLSConfig.Validate
    rw [if_neg h1, if_neg h2', if_neg h3, if_neg h4', if_neg h5]
    by_cases hc : c.hasCert <;> by_cases hk : c.hasKey <;> simp [hc, hk]
  · unfold TLSConfig.Validate TLSConfig.mutualExclusionOK
    split_ifs with g1 g2 g3 g4 g5 g6 g7
    · intro h; exact absurd h (by decide)
    · intro h; exact absurd h (by decide)
    · intro h; exact absurd h (by decide)
    · intro h; exact absurd h (by decide)
    · intro h; exact absurd h (by decide)
    · intro _
      exact ⟨g1, validate_none_of_guard_off _ g2, g3, validate_none_of_guard_off _ g4, g5⟩
    · intro _
      exact ⟨g1, validate_none_of_guard_off _ g2, g3, validate_none_of_guard_off _ g4, g5⟩
    · intro h; exact absurd h (by decide)

/-- Concrete instance of C1: a cert file with no key fails with the
missing-key side of the incomplete-pair error. -/
theorem tlsConfig_validate_completeness_witness :
    tlsCertFileOnly.Validate =
      some "tls config can not specify client cert without client key" :=
  ((tlsConfig_validate_completeness tlsCertFileOnly).1 (by decide)).1
    ⟨by decide, by decide⟩

/-- C2: for a file-augmented TLS configuration, populating both the
reference form and the file-path form of any one slot (CA, Cert or Key)
makes validation fail, whatever the other fields hold. -/
theorem tlsConfig_validate_slot_conflicts (c : TLSConfig) :
    ((c.CA ≠ SecretOrConfigMap.zero ∧ c.CAFile ≠ "") → (c.Validate).isSome) ∧
    ((c.Cert ≠ SecretOrConfigMap.zero ∧ c.CertFile ≠ "") → (c.Validate).isSome) ∧
    ((c.KeyFile ≠ "" ∧ c.KeySecret ≠ none) → (c.Validate).isSome) := by
  unfold TLSConfig.Validate
  split_ifs with g1 g2 g3 g4 g5 g6 g7 <;> simp_all

/-- Concrete instance of C2: the CA reference together with a CA file path
is rejected. -/
theorem tlsConfig_validate_slot_conflicts_witness :
    (tlsCAConflict.Validate).isSome :=
  (tlsConfig_validate_slot_conflicts tlsCAConflict).1 ⟨by decide, by decide⟩

/-- C5 counterexample: on an authorization section with type `Basic` and
both the credentials reference and the credentials file populated, the
file-augmented validator reports the conflicting-credentials error, not the
reserved-type error — so the type check is not rule 1 there. -/
theorem authorization_basic_not_first_counterexample :
    goToLower (goTrimSpace authBasicConflicted.Type') = "basic" ∧
    authBasicConflicted.Validate =
      some "Authorization can not specify both Credentials and CredentialsFile" ∧
    authBasicConflicted.Validate ≠
      some "Authorization type cannot be set to \"basic\", use \"basic_auth\" instead" := by
  refine ⟨by decide, by decide, by decide⟩

/-- C5 amended: a normalized type `basic` always makes validation fail. In
the safe variant the reserved-type error is always the one reported (the
type check is rule 1 there); in the file-augmented variant the
credentials/credentials-file conflict is checked first, so the
reserved-type error is reported exactly when that conflict is absent, and
the conflicting-credentials error is reported when both are populated. -/
theorem authorization_reserved_type (s : SafeAuthorization) (c : Authorization)
    (hs : goToLower (goTrimSpace s.Type') = "basic") (hc : goToLower (goTrimSpace c.Type') = "basic") :
    s.Validate =
      some "Authorization type cannot be set to \"basic\", use \"basic_auth\" instead" ∧
    (¬(c.Credentials ≠ none ∧ c.CredentialsFile ≠ "") →
      c.Validate =
        some "Authorization type cannot be set to \"basic\", use \"basic_auth\" instead") ∧
    ((c.Credentials ≠ none ∧ c.CredentialsFile ≠ "") →
      c.Validate =
        some "Authorization can not specify both Credentials and CredentialsFile") ∧
    (c.Validate).isSome := by
  refine ⟨by simp [SafeAuthorization.Validate, hs], fun h => ?_, fun h => ?_, ?_⟩
  · simp [Authorization.Validate, hc, h]
  · simp [Authorization.Validate, h]
  · by_cases h : c.Credentials ≠ none ∧ c.CredentialsFile ≠ "" <;>
      simp [Authorization.Validate, hc, h]

/-- Concrete instance of the amended C5: the safe variant reports the
reserved-type error for ` Basic `, and the file-augmented variant with a
credentials conflict reports the conflicting-credentials error. -/
theorem authorization_reserved_type_witness :
    safeAuthBasic.Validate =
      some "Authorization type cannot be set to \"basic\", use \"basic_auth\" instead" ∧
    authBasicConflicted.Validate =
      some "Authorization can not specify both Credentials and CredentialsFile" := by
  have h := authorization_reserved_type safeAuthBasic authBasicConflicted
    (by decide) (by decide)
  exact ⟨h.1, h.2.2.1 ⟨by decide, by decide⟩⟩

/-- C6: for a file-augmented authorization section whose normalized type is
not `basic`, populating both the credentials reference and the credentials
file fails with the conflicting-credentials error, while leaving both empty
passes — unlike the safe variant, which rejects a missing credentials
reference. -/
theorem authorization_credentials_rules (c : Authorization)
    (h : goToLower (goTrimSpace c.Type') ≠ "basic") :
    (c.Credentials ≠ none ∧ c.CredentialsFile ≠ "" →
      c.Validate =
        some "Authorization can not specify both Credentials and CredentialsFile") ∧
    (c.Credentials = none ∧ c.CredentialsFile = "" → c.Validate = none) ∧
    (∀ s : SafeAuthorization, goToLower (goTrimSpace s.Type') ≠ "basic" → s.Credentials = none →
      s.Validate = some "Authorization credentials are required") := by
  refine ⟨fun hc => by simp [Authorization.Validate, hc], fun hc => ?_, ?_⟩
  · simp [Authorization.Validate, hc.1, hc.2, h]
  · intro s hs hcred
    simp [SafeAuthorization.Validate, hs, hcred]

/-- Concrete instance of C6: a `Bearer` section with both credential forms
fails with the conflict error; the all-empty section passes. -/
theorem authorization_credentials_rules_witness :
    authBearerConflicted.Validate =
      some "Authorization can not specify both Credentials and CredentialsFile" ∧
    authEmpty.Validate = none := by
  have h1 := authorization_credentials_rules authBearerConflicted (by decide)
  have h2 := authorization_credentials_rules authEmpty (by decide)
  exact ⟨h1.1 ⟨by decide, by decide⟩, h2.2.1 ⟨rfl, rfl⟩⟩

/-- C7: an OAuth2 descriptor with an empty token URL fails with the
missing-token-URL error whatever the other fields; with a token URL but a
structurally empty client id it fails with the missing-client-id error;
otherwise it returns the client-id selector validation wrapped with the
invalid-client-id context. -/
theorem oauth2_validate_rules (o : OAuth2) :
    (o.TokenURL = "" → o.Validate = some "OAuth2 token url must be specified") ∧
    (o.TokenURL ≠ "" → o.ClientID = SecretOrConfigMap.zero →
      o.Validate = some "OAuth2 client id must be specified") ∧
    (o.TokenURL ≠ "" → o.ClientID ≠ SecretOrConfigMap.zero →
      o.Validate =
        (o.ClientID.Validate).map (fun e => "invalid OAuth2 client id: " ++ e)) := by
  refine ⟨fun h1 => by simp [OAuth2.Validate, h1], fun h1 h2 => ?_, fun h1 h2 => ?_⟩
  · simp [OAuth2.Validate, h1, h2]
  · unfold OAuth2.Validate
    rw [if_neg h1, if_neg h2]
    cases hv : o.ClientID.Validate <;> simp

/-- Concrete instance of C7: an empty token URL is rejected with the
missing-token-URL error even though the client id is populated. -/
theorem oauth2_validate_rules_witness :
    oauthNoToken.Validate = some "OAuth2 token url must be specified" :=
  (oauth2_validate_rules oauthNoToken).1 rfl

/-- C9: kind resolution returns, for every resource name that is a key of
the fixed resource-to-kind table, the kind the table associates with it
(paired with the resolved group), and signals the fatal fault (modelled as
`none`) for every name outside the table; being a function of the
reference, equal inputs give equal outcomes. -/
theorem objectReference_groupKind_resolution (obj : ObjectReference) :
    (∀ k, resourceToKind.lookup obj.Resource = some k →
      obj.GroupKind = some { Group := obj.getGroup, Kind := k }) ∧
    (resourceToKind.lookup obj.Resource = none → obj.GroupKind = none) ∧
    (∀ o : ObjectReference, obj = o → obj.GroupKind = o.GroupKind) := by
  refine ⟨fun k hk => ?_, fun hk => ?_, fun o h => by rw [h]⟩
  · unfold ObjectReference.GroupKind
    rw [hk]
  · unfold ObjectReference.GroupKind
    rw [hk]

/-- Concrete instance of C9: `servicemonitors` resolves to the
`ServiceMonitor` kind in the default group, and the out-of-table name
`prometheusrules` reaches the fatal-fault branch. -/
theorem objectReference_groupKind_resolution_witness :
    objRefServiceMonitor.GroupKind =
      some { Group := objRefServiceMonitor.getGroup, Kind := "ServiceMonitor" } ∧
    objRefPrometheusRule.GroupKind = none :=
  ⟨(objectReference_groupKind_resolution objRefServiceMonitor).1 "ServiceMonitor"
      (by decide),
   (objectReference_groupKind_resolution objRefPrometheusRule).2.1 (by decide)⟩

/-- C10: the schema enumeration of `ObjectReference.Resource` and the fixed
resource-to-kind table have drifted apart — the schema-legal value
`prometheusrules` is not a key of the table (whose rule-resource key is
`customprometheusrules`, itself absent from the enumeration), so kind
resolution on a schema-valid reference reaches the fatal-fault branch. -/
theorem objectReference_enum_table_drift :
    "prometheusrules" ∈ objectReferenceResourceEnum ∧
    resourceToKind.lookup "prometheusrules" = none ∧
    PrometheusRuleName = "customprometheusrules" ∧
    PrometheusRuleName ∉ objectReferenceResourceEnum ∧
    ObjectReference.GroupKind
      { Group := "", Resource := "prometheusrules", Namespace := "ns", Name := "" } =
        none := by
  refine ⟨by decide, by decide, rfl, by decide, by decide⟩
